import Mathlib

/-!
Shallow embedding of the r/Stocks sentiment visualization core: the pydantic
record model (`models.py`) and the dataset / HTML renderer
(`services/visualization_service.py`).

Python floats are modelled as exact rationals plus explicit non-finite values
(`FloatVal`).  Pydantic 2 validation semantics are embedded as executable
functions: strict floats accept `float` values and (losslessly) `int` values
and reject everything else; strict strings accept only `str`; the numeric
`ge`/`le` bounds use IEEE comparisons, so NaN and the infinities fail them;
string `pattern` constraints are compiled to an explicit matcher.
-/

namespace RStocks

/-- A Python float value at the validation boundary: a finite value
(modelled exactly as a rational) or one of the non-finite values. -/
inductive FloatVal where
  | finite : ℚ → FloatVal
  | nan : FloatVal
  | inf : FloatVal
  | ninf : FloatVal
deriving DecidableEq

/-- IEEE `<=` on float values: every comparison with NaN is false,
`-inf` is below everything, `+inf` above everything. -/
def fle : FloatVal → FloatVal → Bool
  | .nan, _ => false
  | _, .nan => false
  | .ninf, _ => true
  | _, .ninf => false
  | _, .inf => true
  | .inf, _ => false
  | .finite a, .finite b => decide (a ≤ b)

/-- A raw Python value arriving at the pydantic validation boundary.
Python `bool` is kept distinct from `int` because pydantic distinguishes
them (a bool is rejected where a number is expected). -/
inductive Raw where
  | rint : ℤ → Raw
  | rfloat : FloatVal → Raw
  | rstr : String → Raw
  | rbool : Bool → Raw
  | rnone : Raw
deriving DecidableEq

/-- A field-attributed validation error: the offending field and the
pydantic error kind (e.g. `float_type`, `less_than_equal`). -/
structure ValErr where
  field : String
  kind : String
deriving DecidableEq

/-- Pydantic 2 strict-float validation (`StrictFloat`, Python mode):
a `float` is taken as is, an `int` is accepted and coerced losslessly,
anything else (including `bool` and `str`) fails with `float_type`. -/
def strictFloat (field : String) : Raw → Except ValErr FloatVal
  | .rfloat f => .ok f
  | .rint n => .ok (.finite (n : ℚ))
  | _ => .error ⟨field, "float_type"⟩

/-- Pydantic 2 strict-string validation (`StrictStr`): only `str` passes. -/
def strictStr (field : String) : Raw → Except ValErr String
  | .rstr s => .ok s
  | _ => .error ⟨field, "string_type"⟩

/-- A strict float with closed-interval bounds `lo <= x <= hi`
(the `ge`/`le` keywords of `Field` in `models.py`), using IEEE comparisons:
NaN fails both comparisons, `+inf` fails the upper bound, `-inf` the lower.
The final catch-all arm is unreachable because every non-finite value already
fails one of the two `fle` tests. -/
def boundedFloat (field : String) (lo hi : ℚ) (r : Raw) : Except ValErr ℚ :=
  match strictFloat field r with
  | .error e => .error e
  | .ok f =>
    if fle f (.finite hi) = false then .error ⟨field, "less_than_equal"⟩
    else if fle (.finite lo) f = false then .error ⟨field, "greater_than_equal"⟩
    else
      match f with
      | .finite q => .ok q
      | _ => .error ⟨field, "greater_than_equal"⟩

/-- Uppercase ASCII letter, the `[A-Z]` class of the symbol pattern. -/
def isUpperAZ (c : Char) : Bool := decide ('A' ≤ c) && decide (c ≤ 'Z')

/-- The reversed `<name>` part of the symbol pattern: `.+` requires at least
one character and `.` does not match a newline. -/
def nameOkRev (cs : List Char) : Bool :=
  !cs.isEmpty && cs.all fun c => decide (c ≠ '\n')

/-- After the ticker (scanning the reversed string) there must be a literal
`(`-preceding space and then the nonempty name. -/
def restNameOk : List Char → Bool
  | [] => false
  | r :: nm => decide (r = ' ') && nameOkRev nm

/-- Scan the reversed remainder of a symbol string, consuming the ticker
letters; `j` counts letters consumed so far.  Accepts when a literal `(` is
reached after `1`-`5` uppercase letters, followed by `' '` and the name. -/
def tickerScan : List Char → Nat → Bool
  | [], _ => false
  | c :: rest, j =>
    if c = '(' then decide (1 ≤ j) && restNameOk rest
    else isUpperAZ c && decide (j + 1 ≤ 5) && tickerScan rest (j + 1)

/-- The symbol pattern of `PlotDataPoint.symbol` in `models.py`, the
anchored regular expression `^.+ \(([A-Z]{1,5})\)$`: some name (one or more
non-newline characters), a space, then the 1-5 uppercase-letter ticker in
literal parentheses ending the string. -/
def symbolOk (s : String) : Bool :=
  match s.data.reverse with
  | [] => false
  | c :: rest => decide (c = ')') && tickerScan rest 0

/-- The language of the symbol pattern, stated structurally. -/
def SymbolShape (s : String) : Prop :=
  ∃ name ticker : List Char,
    s.data = name ++ ' ' :: '(' :: (ticker ++ [')']) ∧
    name ≠ [] ∧ (∀ c ∈ name, c ≠ '\n') ∧
    1 ≤ ticker.length ∧ ticker.length ≤ 5 ∧
    ∀ c ∈ ticker, isUpperAZ c = true

/-- `PlotDataPoint.symbol`: strict string constrained by the symbol pattern. -/
def validateSymbol (r : Raw) : Except ValErr String :=
  match strictStr "symbol" r with
  | .error e => .error e
  | .ok s =>
    if symbolOk s then .ok s
    else .error ⟨"symbol", "string_pattern_mismatch"⟩

/-- `PlotDataPoint.sentiment`: strict float in the closed interval `[-1, 1]`. -/
def validateSentiment (r : Raw) : Except ValErr ℚ :=
  boundedFloat "sentiment" (-1) 1 r

/-- `PlotDataPoint.presence`: strict float in the closed interval `[0, 1]`. -/
def validatePresence (r : Raw) : Except ValErr ℚ :=
  boundedFloat "presence" 0 1 r

/-- `PlotDataPoint.summary`: strict string of at most 2000 characters. -/
def validateSummary (r : Raw) : Except ValErr String :=
  match strictStr "summary" r with
  | .error e => .error e
  | .ok s =>
    if 2000 < s.length then .error ⟨"summary", "string_too_long"⟩
    else .ok s

/-- The host portion (everything up to the first `/`, `?` or `#`) is
nonempty. -/
def hostNonempty (cs : List Char) : Bool :=
  !(cs.takeWhile fun c =>
    decide (c ≠ '/') && decide (c ≠ '?') && decide (c ≠ '#')).isEmpty

/-- Models pydantic's `HttpUrl` parse: the url must be absolute, i.e. start
with an `http` or `https` scheme followed by `://` and a nonempty host. -/
def urlOk (s : String) : Bool :=
  ("http://".data.isPrefixOf s.data && hostNonempty (s.data.drop 7)) ||
  ("https://".data.isPrefixOf s.data && hostNonempty (s.data.drop 8))

/-- A validated `Link` from `models.py`: a parsed absolute url and a title
of 1-200 characters. -/
structure Link where
  url : String
  title : String
deriving DecidableEq

/-- The `url` field of a raw `Link`: required (no default) and must parse
as an absolute URL. -/
def validateLinkUrl : Option Raw → Except ValErr String
  | none => .error ⟨"url", "missing"⟩
  | some (.rstr s) =>
    if urlOk s then .ok s else .error ⟨"url", "url_parsing"⟩
  | some _ => .error ⟨"url", "url_type"⟩

/-- The `title` field of a raw `Link`: required, a strict string of length
1-200. -/
def validateLinkTitle : Option Raw → Except ValErr String
  | none => .error ⟨"title", "missing"⟩
  | some r =>
    match strictStr "title" r with
    | .error e => .error e
    | .ok s =>
      if s.length < 1 then .error ⟨"title", "string_too_short"⟩
      else if 200 < s.length then .error ⟨"title", "string_too_long"⟩
      else .ok s

/-- Validation of one raw `Link` object: both fields validated in
declaration order, the first failure reported. -/
def validateLink (urlRaw titleRaw : Option Raw) : Except ValErr Link :=
  match validateLinkUrl urlRaw with
  | .error e => .error e
  | .ok u =>
    match validateLinkTitle titleRaw with
    | .error e => .error e
    | .ok t => .ok ⟨u, t⟩

/-- A validated `PlotDataPoint` from `models.py`. -/
structure PlotDataPoint where
  symbol : String
  sentiment : ℚ
  presence : ℚ
  summary : String
  links : List Link
deriving DecidableEq

/-- Validation of one raw record against the `PlotDataPoint` model.  The
`links` field defaults to the empty list when absent; each raw link is a
pair of optional `url`/`title` values. -/
def validatePlotDataPoint (symbol sentiment presence summary : Raw)
    (links : Option (List (Option Raw × Option Raw))) :
    Except ValErr PlotDataPoint := do
  let s ← validateSymbol symbol
  let sn ← validateSentiment sentiment
  let p ← validatePresence presence
  let su ← validateSummary summary
  let ls ← match links with
    | none => Except.ok ([] : List Link)
    | some raw => raw.mapM fun rt => validateLink rt.1 rt.2
  Except.ok ⟨s, sn, p, su, ls⟩

/-- Coordinates of one dataset point (`PlotDatasetPointData`). -/
structure PlotDatasetPointData where
  x : ℚ
  y : ℚ
deriving DecidableEq

/-- One Chart.js dataset descriptor (`PlotDatasetPoint` in `models.py`). -/
structure PlotDatasetPoint where
  label : String
  data : List PlotDatasetPointData
  backgroundColor : String
  borderColor : String
  pointRadius : ℚ
  pointHoverRadius : ℚ
deriving DecidableEq

/-- The `^#[0-9a-fA-F]{6}$` pattern on the two color fields. -/
def colorOk (s : String) : Bool :=
  match s.data with
  | '#' :: rest =>
    decide (rest.length = 6) &&
    rest.all fun c =>
      (decide ('0' ≤ c) && decide (c ≤ '9')) ||
      (decide ('a' ≤ c) && decide (c ≤ 'f')) ||
      (decide ('A' ≤ c) && decide (c ≤ 'F'))
  | _ => false

/-- Pydantic validation performed when the renderer constructs a
`PlotDatasetPoint`: `data` needs at least one entry and the colors must
match the hex pattern.  The radius fields are strict floats, which accept
the (possibly `int`-typed) clamped radius value. -/
def mkPlotDatasetPoint (label : String) (data : List PlotDatasetPointData)
    (bg border : String) (r hr : ℚ) : Except ValErr PlotDatasetPoint :=
  if data.length < 1 then .error ⟨"data", "too_short"⟩
  else if colorOk bg = false then .error ⟨"backgroundColor", "string_pattern_mismatch"⟩
  else if colorOk border = false then .error ⟨"borderColor", "string_pattern_mismatch"⟩
  else .ok ⟨label, data, bg, border, r, hr⟩

/-- The fixed color palette set in `VisualizationService.__init__`. -/
def colors : List String :=
  ["#FF6384", "#36A2EB", "#FFCE56", "#4BC0C0", "#9966FF",
   "#FF9F40", "#FF6384", "#C9CBCF", "#4BC0C0", "#FF6384"]

/-- `self.colors[i % len(self.colors)]`. -/
def colorAt (i : Nat) : String := colors.getD (i % colors.length) ""

/-- `max(5, min(20, item.presence * 20))`: the point radius clamped to
`[5, 20]`.  Python's `min`/`max` return one of their arguments, so the
value agrees with the rational `max`/`min`. -/
def pointRadiusOf (presence : ℚ) : ℚ := max 5 (min 20 (presence * 20))

/-- The descriptor built for the record at index `i` in
`VisualizationService._generate_datasets`. -/
def datasetOf (i : Nat) (item : PlotDataPoint) : PlotDatasetPoint :=
  ⟨item.symbol, [⟨item.sentiment, item.presence⟩], colorAt i, colorAt i,
   pointRadiusOf item.presence, pointRadiusOf item.presence + 3⟩

/-- The loop of `_generate_datasets`, starting at index `i`: each record is
turned into one `PlotDatasetPoint` (whose construction re-validates) and
appended in order; a validation failure aborts the whole call. -/
def generateDatasetsAux (i : Nat) : List PlotDataPoint → Except ValErr (List PlotDatasetPoint)
  | [] => .ok []
  | item :: rest => do
    let d ← mkPlotDatasetPoint item.symbol [⟨item.sentiment, item.presence⟩]
      (colorAt i) (colorAt i)
      (pointRadiusOf item.presence) (pointRadiusOf item.presence + 3)
    let ds ← generateDatasetsAux (i + 1) rest
    Except.ok (d :: ds)

/-- `VisualizationService._generate_datasets`. -/
def generateDatasets (data : List PlotDataPoint) : Except ValErr (List PlotDatasetPoint) :=
  generateDatasetsAux 0 data

/-- The pure value `_generate_datasets` produces (starting at index `i`). -/
def datasetsFrom (i : Nat) : List PlotDataPoint → List PlotDatasetPoint
  | [] => []
  | item :: rest => datasetOf i item :: datasetsFrom (i + 1) rest

/-- The three-way sentiment color of `_generate_stock_boxes_html`:
strictly positive gets the success hue, strictly negative the danger hue,
exactly zero the neutral hue. -/
def sentimentColor (s : ℚ) : String :=
  if 0 < s then "#28a745" else if s < 0 then "#dc3545" else "#6c757d"

/-- Python's `f"{x:.2f}"` on the exact rational value: round half to even
at two decimals, with a leading minus for negative inputs. -/
def roundHalfEven (q : ℚ) : ℤ :=
  let f := ⌊q⌋
  let r := q - (f : ℚ)
  if r < 1/2 then f
  else if 1/2 < r then f + 1
  else if f % 2 = 0 then f else f + 1

/-- Format a rational to exactly two decimal places, as `f"{x:.2f}"` does. -/
def fmt2 (q : ℚ) : String :=
  let m := (roundHalfEven (q * 100)).natAbs
  (if q < 0 then "-" else "") ++ toString (m / 100) ++ "." ++
    String.mk [Nat.digitChar (m / 10 % 10), Nat.digitChar (m % 10)]

/-- One `<li>` entry of the links list. -/
def linkLi (l : Link) : String :=
  "<li><a href=\"" ++ l.url ++ "\" target=\"_blank\">" ++ l.title ++ "</a></li>"

/-- The links block: an enumerated `<ul>` list when there are links,
otherwise the explicit no-links placeholder. -/
def linksHtmlOf (links : List Link) : String :=
  if links.isEmpty then "<p>No links available</p>"
  else links.foldl (fun acc l => acc ++ linkLi l) "<ul>" ++ "</ul>"

/-- Literal chunk of the stock-box template before the symbol heading. -/
def boxChunk1 : String :=
  "\n            <div class=\"stock-box\">\n                <div class=\"stock-header\">"

/-- Literal chunk between the symbol and the sentiment color. -/
def boxChunk2 : String :=
  "</div>\n                <div class=\"stock-metrics\">\n                    <div class=\"metric\">\n                        <div class=\"metric-label\">Sentiment</div>\n                        <div class=\"metric-value\" style=\"color: "

/-- Literal chunk between the sentiment color and the sentiment value. -/
def boxChunk3 : String :=
  "\">"

/-- Literal chunk between the sentiment value and the presence value. -/
def boxChunk4 : String :=
  "</div>\n                    </div>\n                    <div class=\"metric\">\n                        <div class=\"metric-label\">Presence</div>\n                        <div class=\"metric-value\">"

/-- Literal chunk between the presence value and the summary. -/
def boxChunk5 : String :=
  "</div>\n                    </div>\n                </div>\n                <div class=\"summary\">\n                    <h4>Analysis Summary</h4>\n                    <p>"

/-- Literal chunk between the summary and the links block. -/
def boxChunk6 : String :=
  "</p>\n                </div>\n                <div class=\"links\">\n                    <h4>Related Posts</h4>\n                    "

/-- Literal chunk closing one stock box. -/
def boxChunk7 : String :=
  "\n                </div>\n            </div>\n            "

/-- One stock information box, the f-string of `_generate_stock_boxes_html`. -/
def stockBox (item : PlotDataPoint) : String :=
  boxChunk1 ++ item.symbol ++ boxChunk2 ++ sentimentColor item.sentiment ++
  boxChunk3 ++ fmt2 item.sentiment ++ boxChunk4 ++ fmt2 item.presence ++
  boxChunk5 ++ item.summary ++ boxChunk6 ++ linksHtmlOf item.links ++ boxChunk7

/-- `VisualizationService._generate_stock_boxes_html`: the per-record boxes
accumulated in input order. -/
def stockBoxesHtml (data : List PlotDataPoint) : String :=
  data.foldl (fun acc item => acc ++ stockBox item) ""

/-- Concatenation of `f` over a list in order (spec-side description of the
string accumulation loops). -/
def concatMapStr (f : α → String) : List α → String
  | [] => ""
  | a :: l => f a ++ concatMapStr f l

/-- JSON string escaping as `json.dumps` performs it (default settings:
ASCII-only output, `\uXXXX` escapes with lowercase hex, surrogate pairs
beyond the BMP). -/
def hex4 (n : Nat) : String :=
  String.mk [Nat.digitChar (n / 4096 % 16), Nat.digitChar (n / 256 % 16),
    Nat.digitChar (n / 16 % 16), Nat.digitChar (n % 16)]

/-- Escape one character for a JSON string literal. -/
def jsonEscapeChar (c : Char) : String :=
  if c = '"' then "\\\""
  else if c = '\\' then "\\\\"
  else if c = '\n' then "\\n"
  else if c = '\r' then "\\r"
  else if c = '\t' then "\\t"
  else if c.toNat = 8 then "\\b"
  else if c.toNat = 12 then "\\f"
  else if c.toNat < 32 ∨ 126 < c.toNat then
    if c.toNat ≤ 65535 then "\\u" ++ hex4 c.toNat
    else
      "\\u" ++ hex4 (55296 + (c.toNat - 65536) / 1024) ++
      "\\u" ++ hex4 (56320 + (c.toNat - 65536) % 1024)
  else String.singleton c

/-- A JSON string literal for `s`. -/
def jsonStr (s : String) : String :=
  "\"" ++ s.foldl (fun acc c => acc ++ jsonEscapeChar c) "" ++ "\""

/-- Zero-pad a digit string on the left to length `k`. -/
def padZeros (s : String) (k : Nat) : String :=
  if s.length < k then String.mk (List.replicate (k - s.length) '0') ++ s else s

/-- The smallest exponent `k` with `q * 10 ^ k` integral, when one exists
below 40.  Every value a Python float can hold terminates well within that
bound once it is decimally exact. -/
def decScale (q : ℚ) : Option Nat :=
  (List.range 40).find? fun k => (q * (10 : ℚ) ^ k).den = 1

/-- Python's `repr` of a float carrying the exact rational value `q`
(what `json.dumps` emits for a number): integral values print with a
trailing `.0`, other terminating decimals print all their digits. -/
def jsonNum (q : ℚ) : String :=
  if q.den = 1 then toString q.num ++ ".0"
  else
    match decScale q with
    | some k =>
      let m := (q * (10 : ℚ) ^ k).num.natAbs
      (if q < 0 then "-" else "") ++ toString (m / 10 ^ k) ++ "." ++
        padZeros (toString (m % 10 ^ k)) k
    | none => toString q.num ++ "/" ++ toString q.den

/-- `json.dumps` of one `PlotDatasetPointData` dict. -/
def dumpPointData (p : PlotDatasetPointData) : String :=
  "\x7b\"x\": " ++ jsonNum p.x ++ ", \"y\": " ++ jsonNum p.y ++ "\x7d"

/-- `json.dumps` of one `dataset.model_dump()` dict, fields in declaration
order with the default `", "` and `": "` separators. -/
def dumpDataset (d : PlotDatasetPoint) : String :=
  "\x7b\"label\": " ++ jsonStr d.label ++ ", \"data\": [" ++
  String.intercalate ", " (d.data.map dumpPointData) ++
  "], \"backgroundColor\": " ++ jsonStr d.backgroundColor ++
  ", \"borderColor\": " ++ jsonStr d.borderColor ++
  ", \"pointRadius\": " ++ jsonNum d.pointRadius ++
  ", \"pointHoverRadius\": " ++ jsonNum d.pointHoverRadius ++ "\x7d"

/-- `json.dumps([dataset.model_dump() for dataset in datasets])`. -/
def datasetsJson (ds : List PlotDatasetPoint) : String :=
  "[" ++ String.intercalate ", " (ds.map dumpDataset) ++ "]"

/-- The document template up to the `stock_boxes_html` interpolation point. -/
def htmlPre : String :=
  "<!DOCTYPE html>\n<html lang=\"en\">\n<head>\n    <meta charset=\"UTF-8\">\n    <meta name=\"viewport\" content=\"width=device-width, initial-scale=1.0\">\n    <title>r/Stocks Sentiment Analysis</title>\n    <script src=\"https://cdn.jsdelivr.net/npm/chart.js\"></script>\n    <style>\n        body \x7b\n            font-family: Arial, sans-serif;\n            margin: 20px;\n            background-color: #f5f5f5;\n        \x7d\n        .container \x7b\n            max-width: 1200px;\n            margin: 0 auto;\n            background-color: white;\n            padding: 20px;\n            border-radius: 8px;\n            box-shadow: 0 2px 10px rgba(0,0,0,0.1);\n        \x7d\n        h1 \x7b\n            text-align: center;\n            color: #333;\n            margin-bottom: 30px;\n        \x7d\n        .chart-container \x7b\n            position: relative;\n            height: 600px;\n            margin: 20px 0;\n        \x7d\n        .info \x7b\n            background-color: #e3f2fd;\n            padding: 15px;\n            border-radius: 5px;\n            margin-bottom: 20px;\n        \x7d\n        .info h3 \x7b\n            margin-top: 0;\n            color: #1976d2;\n        \x7d\n        .data-section \x7b\n            margin-top: 40px;\n        \x7d\n        .stock-box \x7b\n            background-color: #f8f9fa;\n            border: 1px solid #dee2e6;\n            border-radius: 8px;\n            padding: 20px;\n            margin-bottom: 20px;\n            box-shadow: 0 1px 3px rgba(0,0,0,0.1);\n        \x7d\n        .stock-header \x7b\n            font-size: 1.4em;\n            font-weight: bold;\n            color: #333;\n            margin-bottom: 15px;\n            border-bottom: 2px solid #007bff;\n            padding-bottom: 8px;\n        \x7d\n        .stock-metrics \x7b\n            display: flex;\n            gap: 30px;\n            margin-bottom: 15px;\n        \x7d\n        .metric \x7b\n            background-color: white;\n            padding: 10px 15px;\n            border-radius: 5px;\n            border: 1px solid #e0e0e0;\n        \x7d\n        .metric-label \x7b\n            font-weight: bold;\n            color: #666;\n            font-size: 0.9em;\n        \x7d\n        .metric-value \x7b\n            font-size: 1.2em;\n            color: #333;\n            margin-top: 5px;\n        \x7d\n        .summary \x7b\n            background-color: white;\n            padding: 15px;\n            border-radius: 5px;\n            border: 1px solid #e0e0e0;\n            margin-bottom: 15px;\n        \x7d\n        .summary h4 \x7b\n            margin-top: 0;\n            color: #333;\n        \x7d\n        .links \x7b\n            background-color: white;\n            padding: 15px;\n            border-radius: 5px;\n            border: 1px solid #e0e0e0;\n        \x7d\n        .links h4 \x7b\n            margin-top: 0;\n            color: #333;\n        \x7d\n        .links ul \x7b\n            margin: 10px 0;\n            padding-left: 20px;\n        \x7d\n        .links li \x7b\n            margin-bottom: 8px;\n        \x7d\n        .links a \x7b\n            color: #007bff;\n            text-decoration: none;\n        \x7d\n        .links a:hover \x7b\n            text-decoration: underline;\n        \x7d\n    </style>\n</head>\n<body>\n    <div class=\"container\">\n        <h1>r/Stocks Sentiment Analysis</h1>\n        \n        <div class=\"info\">\n            <h3>Chart Information</h3>\n            <p><strong>X-axis (Sentiment):</strong> -1.0 (Very Negative) to 1.0 (Very Positive)</p>\n            <p><strong>Y-axis (Presence):</strong> 0.0 (Low Presence) to 1.0 (High Presence)</p>\n            <p><strong>Point Size:</strong> Represents the presence level of each stock</p>\n        </div>\n        \n        <div class=\"chart-container\">\n            <canvas id=\"sentimentChart\"></canvas>\n        </div>\n        \n        <div class=\"data-section\">\n            <h2>Stock Analysis Details</h2>\n            "

/-- The template between the detail panels and the `datasets:` literal. -/
def htmlMidA : String :=
  "\n        </div>\n    </div>\n\n    <script>\n        const ctx = document.getElementById('sentimentChart').getContext('2d');\n        const chart = new Chart(ctx, \x7b\n            type: 'scatter',\n            data: \x7b\n                "

/-- The template between the detail panels and the datasets interpolation
point (ends with the `datasets: ` key the serialized list is bound to). -/
def htmlMid : String :=
  htmlMidA ++ "datasets: "

/-- The rest of the document template after the datasets interpolation. -/
def htmlPost : String :=
  "\n            \x7d,\n            options: \x7b\n                responsive: true,\n                maintainAspectRatio: false,\n                plugins: \x7b\n                    title: \x7b\n                        display: true,\n                        text: 'Stock Sentiment vs Presence Analysis',\n                        font: \x7b\n                            size: 16\n                        \x7d\n                    \x7d,\n                    legend: \x7b\n                        display: true,\n                        position: 'right'\n                    \x7d,\n                    tooltip: \x7b\n                        callbacks: \x7b\n                            label: function(context) \x7b\n                                const label = context.dataset.label || '';\n                                const x = context.parsed.x.toFixed(2);\n                                const y = context.parsed.y.toFixed(2);\n                                return `$\x7blabel\x7d: Sentiment $\x7bx\x7d, Presence $\x7by\x7d`;\n                            \x7d\n                        \x7d\n                    \x7d\n                \x7d,\n                scales: \x7b\n                    x: \x7b\n                        type: 'linear',\n                        position: 'bottom',\n                        title: \x7b\n                            display: true,\n                            text: 'Sentiment (-1.0 to 1.0)'\n                        \x7d,\n                        min: -1.1,\n                        max: 1.1,\n                        grid: \x7b\n                            color: function(context) \x7b\n                                if (context.tick.value === 0) \x7b\n                                    return '#666';\n                                \x7d\n                                return '#e0e0e0';\n                            \x7d,\n                            lineWidth: function(context) \x7b\n                                if (context.tick.value === 0) \x7b\n                                    return 2;\n                                \x7d\n                                return 1;\n                            \x7d\n                        \x7d\n                    \x7d,\n                    y: \x7b\n                        title: \x7b\n                            display: true,\n                            text: 'Presence (0.0 to 1.0)'\n                        \x7d,\n                        min: 0,\n                        max: 1.1,\n                        grid: \x7b\n                            color: '#e0e0e0'\n                        \x7d\n                    \x7d\n                \x7d,\n                interaction: \x7b\n                    intersect: false,\n                    mode: 'point'\n                \x7d\n            \x7d\n        \x7d);\n    </script>\n</body>\n</html>"

/-- `VisualizationService._get_html_template`: the complete document with
the detail panels and the serialized datasets interpolated. -/
def htmlTemplate (datasets : List PlotDatasetPoint) (boxes : String) : String :=
  htmlPre ++ boxes ++ htmlMid ++ datasetsJson datasets ++ htmlPost

/-- The pure core of `VisualizationService.create_plot`: generate the
datasets and the stock boxes and assemble the document (writing the
temporary file and opening the browser are external I/O). -/
def createPlotHtml (data : List PlotDataPoint) : Except ValErr String := do
  let datasets ← generateDatasets data
  Except.ok (htmlTemplate datasets (stockBoxesHtml data))

/-- `mid` occurs as a contiguous substring of `s`. -/
def SubstrOf (mid s : String) : Prop :=
  ∃ p q : List Char, s.data = p ++ mid.data ++ q


/-! ### Lemmas about the symbol pattern -/

theorem isUpperAZ_ne_lparen {c : Char} (h : isUpperAZ c = true) : c ≠ '(' := by
  intro he
  subst he
  exact absurd h (by decide)

theorem tickerScan_sound (cs : List Char) : ∀ j : Nat, j ≤ 5 → tickerScan cs j = true →
    ∃ t nm : List Char, cs = t ++ '(' :: ' ' :: nm ∧ (∀ c ∈ t, isUpperAZ c = true) ∧
      1 ≤ t.length + j ∧ t.length + j ≤ 5 ∧ nm ≠ [] ∧ (∀ c ∈ nm, c ≠ '\n') := by
  induction cs with
  | nil => intro j _ h; simp [tickerScan] at h
  | cons c rest ih =>
    intro j hj h
    rw [tickerScan] at h
    by_cases hc : c = '('
    · subst hc
      rw [if_pos rfl, Bool.and_eq_true] at h
      obtain ⟨h1, h2⟩ := h
      have hj1 : 1 ≤ j := of_decide_eq_true h1
      cases rest with
      | nil => simp [restNameOk] at h2
      | cons r nm =>
        simp only [restNameOk, nameOkRev, Bool.and_eq_true] at h2
        obtain ⟨hr, hne, hall⟩ := h2
        have hr' : r = ' ' := of_decide_eq_true hr
        refine ⟨[], nm, by simp [hr'], by simp, by simpa using hj1, by simpa using hj,
          ?_, ?_⟩
        · simpa using hne
        · intro x hx
          exact of_decide_eq_true (List.all_eq_true.mp hall x hx)
    · rw [if_neg hc, Bool.and_eq_true, Bool.and_eq_true] at h
      obtain ⟨⟨hu, h5⟩, hrec⟩ := h
      obtain ⟨t, nm, heq, hupper, hlen1, hlen5, hnm, hnl⟩ :=
        ih (j + 1) (of_decide_eq_true h5) hrec
      refine ⟨c :: t, nm, by simp [heq], ?_, by simp; omega, by simp at hlen5 ⊢; omega,
        hnm, hnl⟩
      intro x hx
      rcases List.mem_cons.mp hx with hx | hx
      · exact hx ▸ hu
      · exact hupper x hx

theorem tickerScan_complete (t : List Char) : ∀ (j : Nat) (nm : List Char),
    (∀ c ∈ t, isUpperAZ c = true) → 1 ≤ t.length + j → t.length + j ≤ 5 →
    nm ≠ [] → (∀ c ∈ nm, c ≠ '\n') → tickerScan (t ++ '(' :: ' ' :: nm) j = true := by
  induction t with
  | nil =>
    intro j nm _ h1 _ hnm hnl
    rw [List.nil_append, tickerScan, if_pos rfl, Bool.and_eq_true]
    refine ⟨decide_eq_true (by simpa using h1), ?_⟩
    simp only [restNameOk, nameOkRev, Bool.and_eq_true]
    refine ⟨by decide, by simpa using hnm, ?_⟩
    exact List.all_eq_true.mpr fun c hc => decide_eq_true (hnl c hc)
  | cons c t' ih =>
    intro j nm hup h1 h5 hnm hnl
    have hc : c ≠ '(' := isUpperAZ_ne_lparen (hup c (List.mem_cons_self c t'))
    rw [List.cons_append, tickerScan, if_neg hc, Bool.and_eq_true, Bool.and_eq_true]
    refine ⟨⟨hup c (List.mem_cons_self c t'), decide_eq_true (by simp at h5; omega)⟩, ?_⟩
    exact ih (j + 1) nm (fun x hx => hup x (List.mem_cons_of_mem c hx))
      (by omega) (by simp at h5 ⊢; omega) hnm hnl

theorem symbolOk_iff (s : String) : symbolOk s = true ↔ SymbolShape s := by
  constructor
  · intro h
    unfold symbolOk at h
    split at h
    · exact absurd h (by simp)
    · rename_i c rest hrev
      rw [Bool.and_eq_true] at h
      obtain ⟨hc, hscan⟩ := h
      have hc' : c = ')' := of_decide_eq_true hc
      obtain ⟨t, nm, heq, hup, h1, h5, hnm, hnl⟩ :=
        tickerScan_sound rest 0 (by omega) hscan
      refine ⟨nm.reverse, t.reverse, ?_, by simpa using hnm, ?_,
        by simpa using h1, by simpa using h5, ?_⟩
      · have hs : s.data = (c :: rest).reverse := by
          rw [← hrev, List.reverse_reverse]
        rw [hs, hc', heq]
        simp
      · intro x hx
        exact hnl x (List.mem_reverse.mp hx)
      · intro x hx
        exact hup x (List.mem_reverse.mp hx)
  · rintro ⟨name, ticker, heq, hname, hnl, h1, h5, hup⟩
    unfold symbolOk
    have hrev : s.data.reverse = ')' :: (ticker.reverse ++ '(' :: ' ' :: name.reverse) := by
      rw [heq]
      simp
    rw [hrev, Bool.and_eq_true]
    refine ⟨by decide, ?_⟩
    exact tickerScan_complete ticker.reverse 0 name.reverse
      (fun x hx => hup x (List.mem_reverse.mp hx))
      (by simpa using h1) (by simpa using h5)
      (by simpa using hname)
      (fun x hx => hnl x (List.mem_reverse.mp hx))

/-! ### Lemmas about the renderer -/

theorem colorOk_colorAt (i : Nat) : colorOk (colorAt i) = true := by
  have hall : ∀ j, j < colors.length → colorOk (colors.getD j "") = true := by decide
  exact hall _ (Nat.mod_lt _ (by decide))

theorem generateDatasetsAux_ok (l : List PlotDataPoint) :
    ∀ i, generateDatasetsAux i l = .ok (datasetsFrom i l) := by
  induction l with
  | nil => intro i; rfl
  | cons item rest ih =>
    intro i
    simp only [generateDatasetsAux, mkPlotDatasetPoint, datasetsFrom]
    rw [if_neg (by simp), if_neg (by simp [colorOk_colorAt]),
      if_neg (by simp [colorOk_colorAt]), ih]
    rfl

theorem generateDatasets_ok (data : List PlotDataPoint) :
    generateDatasets data = .ok (datasetsFrom 0 data) :=
  generateDatasetsAux_ok data 0

theorem datasetsFrom_length (l : List PlotDataPoint) :
    ∀ i, (datasetsFrom i l).length = l.length := by
  induction l with
  | nil => intro i; rfl
  | cons item rest ih => intro i; simp [datasetsFrom, ih]

theorem datasetsFrom_get (l : List PlotDataPoint) :
    ∀ (i j : Nat) (h : j < l.length) (h2 : j < (datasetsFrom i l).length),
      (datasetsFrom i l).get ⟨j, h2⟩ = datasetOf (i + j) (l.get ⟨j, h⟩) := by
  induction l with
  | nil => intro i j h _; exact absurd h (by simp)
  | cons item rest ih =>
    intro i j h h2
    cases j with
    | zero => simp [datasetsFrom]
    | succ j' =>
      have hr : j' < rest.length := by simpa using h
      simp only [datasetsFrom, List.get_cons_succ]
      rw [ih (i + 1) j' hr (by simpa [datasetsFrom_length] using hr)]
      congr 1
      omega

theorem foldl_append_eq (f : α → String) (l : List α) : ∀ init : String,
    l.foldl (fun acc x => acc ++ f x) init = init ++ concatMapStr f l := by
  induction l with
  | nil => intro init; simp [concatMapStr, String.append_empty]
  | cons a l ih =>
    intro init
    simp only [List.foldl_cons, concatMapStr, ih (init ++ f a), String.append_assoc]

theorem stockBoxesHtml_eq (data : List PlotDataPoint) :
    stockBoxesHtml data = concatMapStr stockBox data := by
  rw [stockBoxesHtml, foldl_append_eq, String.empty_append]

theorem substrOf_append {mid : String} (p q : String) {s : String}
    (h : s = p ++ (mid ++ q)) : SubstrOf mid s :=
  ⟨p.data, q.data, by simp [h, String.data_append, List.append_assoc]⟩

theorem substrOf_trans {a b c : String} (h1 : SubstrOf a b) (h2 : SubstrOf b c) :
    SubstrOf a c := by
  obtain ⟨p1, q1, e1⟩ := h1
  obtain ⟨p2, q2, e2⟩ := h2
  exact ⟨p2 ++ p1, q1 ++ q2, by simp [e2, e1, List.append_assoc]⟩

theorem concatMapStr_substr (f : α → String) {a : α} (l : List α) (ha : a ∈ l) :
    SubstrOf (f a) (concatMapStr f l) := by
  induction l with
  | nil => exact absurd ha (by simp)
  | cons b l ih =>
    rcases List.mem_cons.mp ha with hb | hb
    · exact ⟨[], (concatMapStr f l).data, by simp [hb, concatMapStr, String.data_append]⟩
    · obtain ⟨p, q, e⟩ := ih hb
      exact ⟨(f b).data ++ p, q, by simp [concatMapStr, String.data_append, e,
        List.append_assoc]⟩

/-! ### Resolution of the claims -/

theorem generateDatasets_res {data : List PlotDataPoint} {res : List PlotDatasetPoint}
    (hres : generateDatasets data = .ok res) : res = datasetsFrom 0 data := by
  have h := generateDatasets_ok data
  rw [hres] at h
  exact Except.ok.inj h

/-- Concrete input used to witness the renderer claims. -/
def dataW : List PlotDataPoint :=
  [⟨"Tesla Inc. (TSLA)", 21/50, 77/100, "Bullish on deliveries",
    [⟨"https://x.com/p/1", "Q3 earnings beat"⟩]⟩,
   ⟨"Apple Inc. (AAPL)", -(1/4), 0, "Flat", []⟩]

/-- The datasets generated for `dataW`. -/
def resW : List PlotDatasetPoint := datasetsFrom 0 dataW

/-- Eleven identical records, enough to wrap around the ten-color palette. -/
def dataLong : List PlotDataPoint :=
  List.replicate 11 ⟨"Apple Inc. (AAPL)", 1/2, 1/2, "s", []⟩

/-- The datasets generated for `dataLong`. -/
def resLong : List PlotDatasetPoint := datasetsFrom 0 dataLong

/-- Claim C1: for every validated record, dataset generation computes the point
radius as `clamp(presence * 20, 5, 20)` and the hover radius as that radius
plus 3; for presence `0`, `1/4` and `1` the radius is `5`, `5` and `20`, and
`pointHoverRadius = pointRadius + 3` in every case. -/
theorem c1_point_radius (data : List PlotDataPoint) (res : List PlotDatasetPoint)
    (hres : generateDatasets data = .ok res) (i : Nat)
    (hd : i < data.length) (hr : i < res.length) :
    ((res.get ⟨i, hr⟩).pointRadius = max 5 (min 20 ((data.get ⟨i, hd⟩).presence * 20)) ∧
     (res.get ⟨i, hr⟩).pointHoverRadius = (res.get ⟨i, hr⟩).pointRadius + 3) ∧
    pointRadiusOf 0 = 5 ∧ pointRadiusOf (1/4) = 5 ∧ pointRadiusOf 1 = 20 := by
  have he : res = datasetsFrom 0 data := generateDatasets_res hres
  subst he
  refine ⟨?_, by norm_num [pointRadiusOf, min_def, max_def],
    by norm_num [pointRadiusOf, min_def, max_def],
    by norm_num [pointRadiusOf, min_def, max_def]⟩
  rw [datasetsFrom_get data 0 i hd hr]
  exact ⟨rfl, rfl⟩

/-- Witness for C1 on the concrete two-record input `dataW`. -/
theorem c1_point_radius_check :
    generateDatasets dataW = Except.ok resW ∧
    (((resW.get ⟨0, by decide⟩).pointRadius =
        max 5 (min 20 ((dataW.get ⟨0, by decide⟩).presence * 20)) ∧
      (resW.get ⟨0, by decide⟩).pointHoverRadius =
        (resW.get ⟨0, by decide⟩).pointRadius + 3) ∧
     pointRadiusOf 0 = 5 ∧ pointRadiusOf (1/4) = 5 ∧ pointRadiusOf 1 = 20) :=
  ⟨rfl, c1_point_radius dataW resW rfl 0 (by decide) (by decide)⟩

/-- Claim C5: dataset generation returns exactly one descriptor per record, in
input order, with the record's symbol as label and a single
`(x = sentiment, y = presence)` coordinate pair; the detail-panel HTML is the
in-order concatenation of the per-record boxes. -/
theorem c5_order_preserved (data : List PlotDataPoint) (res : List PlotDatasetPoint)
    (hres : generateDatasets data = .ok res) :
    res.length = data.length ∧
    (∀ (i : Nat) (hd : i < data.length) (hr : i < res.length),
      (res.get ⟨i, hr⟩).label = (data.get ⟨i, hd⟩).symbol ∧
      (res.get ⟨i, hr⟩).data =
        [⟨(data.get ⟨i, hd⟩).sentiment, (data.get ⟨i, hd⟩).presence⟩]) ∧
    stockBoxesHtml data = concatMapStr stockBox data := by
  have he : res = datasetsFrom 0 data := generateDatasets_res hres
  subst he
  refine ⟨datasetsFrom_length data 0, ?_, stockBoxesHtml_eq data⟩
  intro i hd hr
  rw [datasetsFrom_get data 0 i hd hr]
  exact ⟨rfl, rfl⟩

/-- Witness for C5 on the concrete two-record input `dataW`. -/
theorem c5_order_preserved_check :
    generateDatasets dataW = Except.ok resW ∧
    (resW.length = dataW.length ∧
     (∀ (i : Nat) (hd : i < dataW.length) (hr : i < resW.length),
       (resW.get ⟨i, hr⟩).label = (dataW.get ⟨i, hd⟩).symbol ∧
       (resW.get ⟨i, hr⟩).data =
         [⟨(dataW.get ⟨i, hd⟩).sentiment, (dataW.get ⟨i, hd⟩).presence⟩]) ∧
     stockBoxesHtml dataW = concatMapStr stockBox dataW) :=
  ⟨rfl, c5_order_preserved dataW resW rfl⟩

/-- Claim C6: colors are assigned cyclically from the fixed palette by record
index, the same palette entry serving as both fill and stroke, so records ten
apart (the palette length) share identical colors. -/
theorem c6_color_cycling (data : List PlotDataPoint) (res : List PlotDatasetPoint)
    (hres : generateDatasets data = .ok res) :
    (∀ (i : Nat) (hr : i < res.length),
      (res.get ⟨i, hr⟩).backgroundColor = colors.getD (i % colors.length) "" ∧
      (res.get ⟨i, hr⟩).borderColor = colors.getD (i % colors.length) "") ∧
    (∀ (i : Nat) (h1 : i < res.length) (h2 : i + colors.length < res.length),
      (res.get ⟨i, h1⟩).backgroundColor =
        (res.get ⟨i + colors.length, h2⟩).backgroundColor ∧
      (res.get ⟨i, h1⟩).borderColor =
        (res.get ⟨i + colors.length, h2⟩).borderColor) := by
  have he : res = datasetsFrom 0 data := generateDatasets_res hres
  subst he
  have hbase : ∀ (i : Nat) (hr : i < (datasetsFrom 0 data).length),
      ((datasetsFrom 0 data).get ⟨i, hr⟩).backgroundColor =
        colors.getD (i % colors.length) "" ∧
      ((datasetsFrom 0 data).get ⟨i, hr⟩).borderColor =
        colors.getD (i % colors.length) "" := by
    intro i hr
    have hd : i < data.length := by simpa [datasetsFrom_length] using hr
    rw [datasetsFrom_get data 0 i hd hr]
    constructor <;> simp [datasetOf, colorAt]
  refine ⟨hbase, ?_⟩
  intro i h1 h2
  obtain ⟨hb1, hc1⟩ := hbase i h1
  obtain ⟨hb2, hc2⟩ := hbase (i + colors.length) h2
  rw [hb1, hb2, hc1, hc2, Nat.add_mod_right]
  exact ⟨rfl, rfl⟩

/-- Witness for C6 on eleven records: indices 0 and 10 share both colors. -/
theorem c6_color_cycling_check :
    generateDatasets dataLong = Except.ok resLong ∧
    ((resLong.get ⟨0, by decide⟩).backgroundColor =
       (resLong.get ⟨0 + colors.length, by decide⟩).backgroundColor ∧
     (resLong.get ⟨0, by decide⟩).borderColor =
       (resLong.get ⟨0 + colors.length, by decide⟩).borderColor) :=
  ⟨rfl, (c6_color_cycling dataLong resLong rfl).2 0 (by decide) (by decide)⟩

/-- Claim C8: rendering the empty record list is not an error: it yields the
empty dataset list, no detail panels, and a complete document embedding the
empty datasets serialization `[]`. -/
theorem c8_empty_input :
    generateDatasets [] = Except.ok [] ∧
    stockBoxesHtml [] = "" ∧
    datasetsJson [] = "[]" ∧
    createPlotHtml [] = Except.ok (htmlPre ++ "" ++ htmlMid ++ "[]" ++ htmlPost) ∧
    SubstrOf "datasets: []" (htmlPre ++ "" ++ htmlMid ++ "[]" ++ htmlPost) := by
  refine ⟨rfl, rfl, rfl, rfl, ?_⟩
  refine substrOf_append (htmlPre ++ "" ++ htmlMidA) htmlPost ?_
  rw [show ("datasets: []" : String) = "datasets: " ++ "[]" by decide]
  simp only [htmlMid, String.append_assoc]

theorem boundedFloat_finite (field : String) (lo hi q : ℚ) :
    boundedFloat field lo hi (.rfloat (.finite q)) = .ok q ↔ (lo ≤ q ∧ q ≤ hi) := by
  simp only [boundedFloat, strictFloat, fle]
  by_cases h1 : q ≤ hi
  · by_cases h2 : lo ≤ q
    · simp [h1, h2]
    · simp [h1, h2]
  · simp [h1]

/-- Claim C2: symbol validation accepts exactly the strings of the shape
`<name> (<TICKER>)` with a 1-5 uppercase-letter ticker; the four spec
examples behave as stated, and an accepted symbol is returned unchanged
(never case-normalized). -/
theorem c2_symbol_pattern :
    validateSymbol (.rstr "Apple Inc. (AAPL)") = .ok "Apple Inc. (AAPL)" ∧
    (validateSymbol (.rstr "Apple Inc. (aapl)")).isOk = false ∧
    (validateSymbol (.rstr "Apple Inc. (TOOLONG)")).isOk = false ∧
    (validateSymbol (.rstr "AAPL")).isOk = false ∧
    (∀ s : String, (validateSymbol (.rstr s)).isOk = true ↔ SymbolShape s) ∧
    (∀ s r : String, validateSymbol (.rstr s) = .ok r → r = s) := by
  refine ⟨rfl, rfl, rfl, rfl, ?_, ?_⟩
  · intro s
    simp only [validateSymbol, strictStr]
    by_cases h : symbolOk s = true
    · rw [if_pos h]
      simpa [Except.isOk, Except.toBool] using (symbolOk_iff s).mp h
    · rw [if_neg h]
      exact iff_of_false (by simp [Except.isOk, Except.toBool])
        (fun hs => h ((symbolOk_iff s).mpr hs))
  · intro s r h
    simp only [validateSymbol, strictStr] at h
    by_cases h1 : symbolOk s = true
    · rw [if_pos h1] at h
      exact (Except.ok.inj h).symm
    · rw [if_neg h1] at h
      exact absurd h (by simp)

/-- Witness for C2: the accepted example is in the pattern's language. -/
theorem c2_symbol_pattern_check : SymbolShape "Apple Inc. (AAPL)" :=
  (c2_symbol_pattern.2.2.2.2.1 "Apple Inc. (AAPL)").mp rfl

/-- Claim C3: sentiment and presence validation use closed intervals: the
boundary values `-1`, `1` and `0`, `1` are accepted, `1.0001` and `-0.0001`
are rejected, and the non-finite values NaN and the infinities are rejected
for both fields. -/
theorem c3_closed_interval :
    (∀ q : ℚ, validateSentiment (.rfloat (.finite q)) = .ok q ↔ (-1 ≤ q ∧ q ≤ 1)) ∧
    (∀ q : ℚ, validatePresence (.rfloat (.finite q)) = .ok q ↔ (0 ≤ q ∧ q ≤ 1)) ∧
    validateSentiment (.rfloat (.finite (-1))) = .ok (-1) ∧
    validateSentiment (.rfloat (.finite 1)) = .ok 1 ∧
    (validateSentiment (.rfloat (.finite (10001/10000)))).isOk = false ∧
    validatePresence (.rfloat (.finite 0)) = .ok 0 ∧
    validatePresence (.rfloat (.finite 1)) = .ok 1 ∧
    (validatePresence (.rfloat (.finite (-(1/10000))))).isOk = false ∧
    (validateSentiment (.rfloat .nan)).isOk = false ∧
    (validateSentiment (.rfloat .inf)).isOk = false ∧
    (validateSentiment (.rfloat .ninf)).isOk = false ∧
    (validatePresence (.rfloat .nan)).isOk = false ∧
    (validatePresence (.rfloat .inf)).isOk = false ∧
    (validatePresence (.rfloat .ninf)).isOk = false := by
  refine ⟨fun q => boundedFloat_finite "sentiment" (-1) 1 q,
    fun q => boundedFloat_finite "presence" 0 1 q,
    (boundedFloat_finite "sentiment" (-1) 1 (-1)).mpr (by norm_num),
    (boundedFloat_finite "sentiment" (-1) 1 1).mpr (by norm_num),
    ?_, (boundedFloat_finite "presence" 0 1 0).mpr (by norm_num),
    (boundedFloat_finite "presence" 0 1 1).mpr (by norm_num),
    ?_, rfl, rfl, rfl, rfl, rfl, rfl⟩
  · norm_num [validateSentiment, boundedFloat, strictFloat, fle, Except.isOk,
      Except.toBool]
  · norm_num [validatePresence, boundedFloat, strictFloat, fle, Except.isOk,
      Except.toBool]

/-- Witness for C3: the boundary value `1` is accepted for sentiment via the
interval characterization. -/
theorem c3_closed_interval_check :
    validateSentiment (.rfloat (.finite 1)) = .ok 1 ∧ ((-1 : ℚ) ≤ 1 ∧ (1 : ℚ) ≤ 1) :=
  ⟨(c3_closed_interval.1 1).mpr (by norm_num), by norm_num⟩

/-- Claim C4: the symbol pattern is anchored at the end of the string: every
accepted symbol decomposes as a name, a space, an opening parenthesis, the
ticker and a final closing parenthesis, and the accepted example with a
trailing newline appended is rejected. -/
theorem c4_end_anchored :
    (∀ s r : String, validateSymbol (.rstr s) = .ok r →
      ∃ name ticker : List Char,
        s.data = name ++ ' ' :: '(' :: (ticker ++ [')']) ∧
        1 ≤ ticker.length ∧ ticker.length ≤ 5 ∧ (∀ c ∈ ticker, isUpperAZ c = true)) ∧
    (validateSymbol (.rstr "Apple Inc. (AAPL)\n")).isOk = false ∧
    (validateSymbol (.rstr "Apple Inc. (AAPL)")).isOk = true := by
  refine ⟨?_, rfl, rfl⟩
  intro s r h
  have hok : symbolOk s = true := by
    simp only [validateSymbol, strictStr] at h
    by_cases h1 : symbolOk s = true
    · exact h1
    · rw [if_neg h1] at h
      exact absurd h (by simp)
  obtain ⟨name, ticker, heq, _, _, h1, h5, hup⟩ := (symbolOk_iff s).mp hok
  exact ⟨name, ticker, heq, h1, h5, hup⟩

/-- Witness for C4 at the accepted example string. -/
theorem c4_end_anchored_check :
    ∃ name ticker : List Char,
      "Apple Inc. (AAPL)".data = name ++ ' ' :: '(' :: (ticker ++ [')']) ∧
      1 ≤ ticker.length ∧ ticker.length ≤ 5 ∧ (∀ c ∈ ticker, isUpperAZ c = true) :=
  c4_end_anchored.1 "Apple Inc. (AAPL)" "Apple Inc. (AAPL)" rfl

/-- The part of `boxChunk2` before the `color: ` CSS property. -/
def boxChunk2a : String :=
  "</div>\n                <div class=\"stock-metrics\">\n                    <div class=\"metric\">\n                        <div class=\"metric-label\">Sentiment</div>\n                        <div class=\"metric-value\" style=\""

theorem boxChunk2_split : boxChunk2 = boxChunk2a ++ "color: " := rfl

/-- Claim C7: each record's detail panel shows the sentiment to two decimal
places directly styled with the three-way color classification, the presence
to two decimal places, the summary verbatim, and either every link as a list
entry or the explicit no-links placeholder when the links list is empty. -/
theorem c7_detail_panel (item : PlotDataPoint) :
    SubstrOf ("color: " ++ sentimentColor item.sentiment ++ "\">" ++ fmt2 item.sentiment)
      (stockBox item) ∧
    sentimentColor item.sentiment =
      (if 0 < item.sentiment then "#28a745"
       else if item.sentiment < 0 then "#dc3545" else "#6c757d") ∧
    SubstrOf (fmt2 item.presence) (stockBox item) ∧
    (∃ ip : String, ∃ d1 d2 : Char,
      fmt2 item.sentiment = ip ++ "." ++ String.mk [d1, d2]) ∧
    (∃ ip : String, ∃ d1 d2 : Char,
      fmt2 item.presence = ip ++ "." ++ String.mk [d1, d2]) ∧
    SubstrOf item.summary (stockBox item) ∧
    (item.links = [] → linksHtmlOf item.links = "<p>No links available</p>" ∧
      SubstrOf "<p>No links available</p>" (stockBox item)) ∧
    (∀ l ∈ item.links,
      SubstrOf ("<li><a href=\"" ++ l.url ++ "\" target=\"_blank\">" ++ l.title ++
        "</a></li>") (stockBox item)) := by
  refine ⟨?_, rfl, ?_, ⟨_, _, _, rfl⟩, ⟨_, _, _, rfl⟩, ?_, ?_, ?_⟩
  · exact substrOf_append (boxChunk1 ++ item.symbol ++ boxChunk2a)
      (boxChunk4 ++ fmt2 item.presence ++ boxChunk5 ++ item.summary ++ boxChunk6 ++
        linksHtmlOf item.links ++ boxChunk7)
      (by simp only [stockBox, boxChunk2_split, boxChunk3, String.append_assoc])
  · exact substrOf_append (boxChunk1 ++ item.symbol ++ boxChunk2 ++
      sentimentColor item.sentiment ++ boxChunk3 ++ fmt2 item.sentiment ++ boxChunk4)
      (boxChunk5 ++ item.summary ++ boxChunk6 ++ linksHtmlOf item.links ++ boxChunk7)
      (by simp only [stockBox, String.append_assoc])
  · exact substrOf_append (boxChunk1 ++ item.symbol ++ boxChunk2 ++
      sentimentColor item.sentiment ++ boxChunk3 ++ fmt2 item.sentiment ++ boxChunk4 ++
      fmt2 item.presence ++ boxChunk5)
      (boxChunk6 ++ linksHtmlOf item.links ++ boxChunk7)
      (by simp only [stockBox, String.append_assoc])
  · intro h
    refine ⟨by rw [h]; rfl, ?_⟩
    refine substrOf_append (boxChunk1 ++ item.symbol ++ boxChunk2 ++
      sentimentColor item.sentiment ++ boxChunk3 ++ fmt2 item.sentiment ++ boxChunk4 ++
      fmt2 item.presence ++ boxChunk5 ++ item.summary ++ boxChunk6) boxChunk7 ?_
    simp [stockBox, h, linksHtmlOf, String.append_assoc]
  · intro l hl
    have hne : item.links ≠ [] := List.ne_nil_of_mem hl
    have hsub1 : SubstrOf (linkLi l) (linksHtmlOf item.links) := by
      rw [linksHtmlOf, if_neg (by simpa [List.isEmpty_iff] using hne), foldl_append_eq]
      obtain ⟨p, q, e⟩ := concatMapStr_substr linkLi item.links hl
      exact ⟨"<ul>".data ++ p, q ++ "</ul>".data, by
        simp [String.data_append, e, List.append_assoc]⟩
    have hsub2 : SubstrOf (linksHtmlOf item.links) (stockBox item) :=
      substrOf_append (boxChunk1 ++ item.symbol ++ boxChunk2 ++
        sentimentColor item.sentiment ++ boxChunk3 ++ fmt2 item.sentiment ++ boxChunk4 ++
        fmt2 item.presence ++ boxChunk5 ++ item.summary ++ boxChunk6) boxChunk7
        (by simp only [stockBox, String.append_assoc])
    exact substrOf_trans hsub1 hsub2

/-- The single link of the witness record. -/
def linkW : Link := ⟨"https://x.com/p/1", "Q3 earnings beat"⟩

/-- Witness record with one link. -/
def itemW : PlotDataPoint :=
  ⟨"Tesla Inc. (TSLA)", 21/50, 77/100, "Bullish on deliveries", [linkW]⟩

/-- Witness record with no links. -/
def itemNoLinks : PlotDataPoint := ⟨"Apple Inc. (AAPL)", 0, 0, "Flat", []⟩

/-- Witness for C7 on the two concrete records. -/
theorem c7_detail_panel_check :
    SubstrOf (fmt2 itemW.presence) (stockBox itemW) ∧
    (linksHtmlOf itemNoLinks.links = "<p>No links available</p>" ∧
     SubstrOf "<p>No links available</p>" (stockBox itemNoLinks)) ∧
    SubstrOf ("<li><a href=\"" ++ linkW.url ++ "\" target=\"_blank\">" ++ linkW.title ++
      "</a></li>") (stockBox itemW) :=
  ⟨(c7_detail_panel itemW).2.2.1,
   (c7_detail_panel itemNoLinks).2.2.2.2.2.2.1 rfl,
   (c7_detail_panel itemW).2.2.2.2.2.2.2 linkW (List.mem_singleton.mpr rfl)⟩

/-- Claim C9: link validation succeeds exactly when the url parses as an
absolute URL and the title has length 1-200; both fields are required, with
no default for `url`; errors are attributed to the offending field. -/
theorem c9_link_validation :
    (∀ u t : String, validateLink (some (.rstr u)) (some (.rstr t)) = .ok ⟨u, t⟩ ↔
      (urlOk u = true ∧ 1 ≤ t.length ∧ t.length ≤ 200)) ∧
    (∀ titleRaw : Option Raw, validateLink none titleRaw = .error ⟨"url", "missing"⟩) ∧
    (∀ u : String, urlOk u = true →
      validateLink (some (.rstr u)) none = .error ⟨"title", "missing"⟩) ∧
    validateLink (some (.rstr "https://x.com/p/1")) (some (.rstr "Q3 earnings beat")) =
      .ok ⟨"https://x.com/p/1", "Q3 earnings beat"⟩ ∧
    (validateLink (some (.rstr "x.com/p/1")) (some (.rstr "t"))).isOk = false ∧
    (validateLink (some (.rstr "https://x.com")) (some (.rstr ""))).isOk = false := by
  refine ⟨?_, fun titleRaw => rfl, ?_, rfl, rfl, rfl⟩
  · intro u t
    constructor
    · intro h
      by_cases hu : urlOk u = true
      · by_cases h1 : t.length < 1
        · simp [validateLink, validateLinkUrl, validateLinkTitle, strictStr, hu, h1] at h
        · by_cases h2 : 200 < t.length
          · simp [validateLink, validateLinkUrl, validateLinkTitle, strictStr, hu, h1,
              h2] at h
          · exact ⟨hu, by omega, by omega⟩
      · simp [validateLink, validateLinkUrl, strictStr, hu] at h
    · rintro ⟨hu, h1, h2⟩
      have hn1 : ¬ (t.length < 1) := by omega
      have hn2 : ¬ (200 < t.length) := by omega
      simp [validateLink, validateLinkUrl, validateLinkTitle, strictStr, hu, hn1, hn2]
  · intro u hu
    simp [validateLink, validateLinkUrl, validateLinkTitle, hu]

/-- Witness for C9: a parsed url with a missing title is rejected on the
`title` field. -/
theorem c9_link_validation_check :
    validateLink (some (.rstr "https://x.com/p/1")) none =
      .error ⟨"title", "missing"⟩ :=
  c9_link_validation.2.2.1 "https://x.com/p/1" rfl

/-- Counterexample to claim C10 as stated: a raw record whose sentiment and
presence are supplied as the Python integers `1` and `0` is accepted (the
values are coerced to floats), not rejected. -/
theorem c10_int_accepted :
    validatePlotDataPoint (.rstr "Apple Inc. (AAPL)") (.rint 1) (.rint 0)
      (.rstr "summary") none =
    .ok ⟨"Apple Inc. (AAPL)", ((1 : ℤ) : ℚ), ((0 : ℤ) : ℚ), "summary", []⟩ := rfl

/-- Claim C10 as amended: validation is strict about string types: a
non-string symbol or summary (int, float, bool or None) is rejected rather
than stringified, and strings, booleans and None are rejected for both
sentiment and presence; but an in-range integer sentiment or presence is
accepted and coerced losslessly to the float value. -/
theorem c10_strict_types :
    (∀ n : ℤ, -1 ≤ (n : ℚ) → (n : ℚ) ≤ 1 → validateSentiment (.rint n) = .ok (n : ℚ)) ∧
    (∀ n : ℤ, 0 ≤ (n : ℚ) → (n : ℚ) ≤ 1 → validatePresence (.rint n) = .ok (n : ℚ)) ∧
    (∀ s : String, (validateSentiment (.rstr s)).isOk = false) ∧
    (∀ b : Bool, (validateSentiment (.rbool b)).isOk = false) ∧
    (validateSentiment .rnone).isOk = false ∧
    (∀ s : String, (validatePresence (.rstr s)).isOk = false) ∧
    (∀ b : Bool, (validatePresence (.rbool b)).isOk = false) ∧
    (validatePresence .rnone).isOk = false ∧
    (∀ z : ℤ, (validateSymbol (.rint z)).isOk = false) ∧
    (∀ f : FloatVal, (validateSymbol (.rfloat f)).isOk = false) ∧
    (∀ b : Bool, (validateSymbol (.rbool b)).isOk = false) ∧
    (validateSymbol .rnone).isOk = false ∧
    (∀ z : ℤ, (validateSummary (.rint z)).isOk = false) ∧
    (∀ f : FloatVal, (validateSummary (.rfloat f)).isOk = false) ∧
    (∀ b : Bool, (validateSummary (.rbool b)).isOk = false) ∧
    (validateSummary .rnone).isOk = false := by
  refine ⟨?_, ?_, fun s => rfl, fun b => rfl, rfl, fun s => rfl, fun b => rfl, rfl,
    fun z => rfl, fun f => rfl, fun b => rfl, rfl,
    fun z => rfl, fun f => rfl, fun b => rfl, rfl⟩
  · intro n hge hle
    have h : validateSentiment (.rint n) =
        boundedFloat "sentiment" (-1) 1 (.rfloat (.finite (n : ℚ))) := rfl
    rw [h]
    exact (boundedFloat_finite "sentiment" (-1) 1 (n : ℚ)).mpr ⟨hge, hle⟩
  · intro n hge hle
    have h : validatePresence (.rint n) =
        boundedFloat "presence" 0 1 (.rfloat (.finite (n : ℚ))) := rfl
    rw [h]
    exact (boundedFloat_finite "presence" 0 1 (n : ℚ)).mpr ⟨hge, hle⟩

/-- Witness for the amended C10: the boundary integers 1 and 0 are accepted
for sentiment and presence. -/
theorem c10_strict_types_check :
    validateSentiment (.rint 1) = .ok ((1 : ℤ) : ℚ) ∧
    validatePresence (.rint 0) = .ok ((0 : ℤ) : ℚ) :=
  ⟨c10_strict_types.1 1 (by simp) (by simp),
   c10_strict_types.2.1 0 (by simp) (by simp)⟩

end RStocks
